import Mathlib

/-!
Shallow embedding of the packet assembly engine of `python-anvil`
(`belfry_python_anvil/api_resources/mutations/create_etch_packet.py`,
class `CreateEtchPacket`).

Python objects are modelled as Lean structures; the mutable list/dict
objects held by a builder (`self.signers`, `self.files`,
`self.file_payloads`) live in an explicit heap of cells, because the
source shares these objects by reference (in particular,
`create_payload` stores references to the builder's own collections in
the payload it returns).  Python exceptions are modelled with
`Except PyErr`; an `Except.error` result leaves the caller's heap
unchanged, which is faithful to the source because every `raise` in the
translated methods occurs before any mutation.
-/

namespace PythonAnvil

/-- Python exception values raised by the translated code.  `typeError`
models `TypeError` (the spec's ConfigurationError), `valueError` models
`ValueError` (the spec's ValidationError) raised without a cause, and
`valueErrorFrom` models `raise ValueError(...) from e`, i.e. a
ValidationError explicitly carrying the original cause. -/
inductive PyErr where
  | typeError (msg : String)
  | valueError (msg : String)
  | valueErrorFrom (msg : String) (cause : PyErr)
deriving DecidableEq

/-- Python truthiness test for an `Optional[str]`: `not x` is true exactly
when the value is `None` or the empty string. -/
def strFalsy : Option String → Bool
  | none => true
  | some s => s == ""

/-- Python truthiness test for an `Optional[int]`: `not x` is true exactly
when the value is `None` or `0`. -/
def intFalsy : Option Int → Bool
  | none => true
  | some n => n == 0

/-- Modelled from the spec: `utils.create_unique_id` (not under src/)
returns a string beginning with the given prefix followed by a
collision-resistant suffix.  No claim depends on the suffix
distribution, so the suffix is modelled deterministically. -/
def create_unique_id (pre : String) : String := pre ++ "-generated"

/-- Modelled from the spec: the standard extension-to-MIME mapping used by
`mimetypes.guess_type` (Python standard library), restricted to common
extensions; an extension outside the table is unresolvable. -/
def mimeFromExt : String → Option String
  | "pdf" => some "application/pdf"
  | "txt" => some "text/plain"
  | "html" => some "text/html"
  | "htm" => some "text/html"
  | "csv" => some "text/csv"
  | "json" => some "application/json"
  | "png" => some "image/png"
  | "jpg" => some "image/jpeg"
  | "jpeg" => some "image/jpeg"
  | "gif" => some "image/gif"
  | "zip" => some "application/zip"
  | "doc" => some "application/msword"
  | _ => none

/-- Characters after the last dot of a filename, or `none` when the
filename has no dot. -/
def extAfterDot : List Char → Option (List Char)
  | [] => none
  | c :: rest =>
    match extAfterDot rest with
    | some e => some e
    | none => if c = '.' then some rest else none

/-- Modelled from the spec: `mimetypes.guess_type` restricted to its first
component — derive a MIME type from the filename's extension (the part
after the last dot, lowercased); a filename without an extension or with
an unknown extension yields `none`. -/
def guess_type (filename : String) : Option String :=
  match extAfterDot filename.toList with
  | none => none
  | some ext => mimeFromExt (String.mk (ext.map Char.toLower))

/-- Modelled from the spec: one field assignment of a signer, referencing a
target attachment id and a field id within that attachment
(`payload.SignerField`, not under src/). -/
structure SignerField where
  file_id : String
  field_id : String
deriving DecidableEq

/-- Modelled from the spec: one signing party
(`payload.EtchSigner`, not under src/): identity, an optional unique id,
an optional integer routing order, a signer-kind tag, and field
assignments.  All fields optional at construction; the builder fills in
defaults. -/
structure EtchSigner where
  name : Option String := none
  email : Option String := none
  id : Option String := none
  routing_order : Option Int := none
  signer_type : String := "email"
  fields : List SignerField := []
deriving DecidableEq

/-- Modelled from the spec: the content source of an uploadable document:
either a byte stream wrapped for upload (a `BufferedIOBase` object with a
`name` and an optional `content_type` attribute) or inline base64 data
(`payload.Base64Upload`, not under src/). -/
inductive FileContent where
  | stream (name : String) (content_type : Option String)
  | base64 (data : String) (filename : String)
deriving DecidableEq

/-- Modelled from the spec: a new document upload with signable field
annotations (`payload.DocumentUpload`, not under src/). -/
structure DocumentUpload where
  id : String
  title : String := ""
  file : FileContent
  fields : List String := []
deriving DecidableEq

/-- Modelled from the spec: an attachable file is either a new document
upload or a reference to an already-uploaded file
(`payload.AttachableEtchFile`, not under src/). -/
inductive AttachableEtchFile where
  | upload (d : DocumentUpload)
  | castRef (id : String) (cast_eid : String)
deriving DecidableEq

/-- The `id` attribute shared by both attachable-file variants. -/
def AttachableEtchFile.id : AttachableEtchFile → String
  | .upload d => d.id
  | .castRef i _ => i

/-- Caller-supplied prefill data for one attachment; opaque to the builder. -/
abbrev FillData := String

/-- The `enable_emails` parameter is `Union[bool, List[str]]` in the source. -/
inductive EnableEmails where
  | flag (b : Bool)
  | list (l : List String)
deriving DecidableEq

/-- The materialized payload (`payload.CreateEtchPacketPayload`).  In the
source, `create_payload` passes `signers=self.signers`,
`files=self.files` and `data=CreateEtchFilePayload(payloads=self.get_file_payloads())`:
the payload stores references to the builder's own list/dict objects, so
the collection-valued fields are heap cell references here; the scalar
fields are plain values. -/
structure CreateEtchPacketPayload where
  is_test : Bool := true
  is_draft : Bool := false
  name : String := ""
  signersRef : Nat := 0
  filesRef : Nat := 0
  dataRef : Nat := 0
  signature_email_subject : Option String := none
  signature_email_body : Option String := none
  signature_page_options : List (String × String) := []
  webhook_url : Option String := none
  reply_to_email : Option String := none
  reply_to_name : Option String := none
  merge_pdfs : Option Bool := none
  enable_emails : Option EnableEmails := none
  create_cast_templates_from_uploads : Option Bool := none
  duplicate_casts : Option Bool := none
deriving DecidableEq

/-- The heap of mutable collection objects.  Each builder allocates one
cell per collection at construction time; payloads returned by
`create_payload` refer to the same cells. -/
structure Heap where
  signerLists : List (List EtchSigner) := []
  fileLists : List (List AttachableEtchFile) := []
  fillMaps : List (List (String × FillData)) := []
deriving DecidableEq

def Heap.readSigners (h : Heap) (r : Nat) : List EtchSigner :=
  h.signerLists.getD r []

def Heap.writeSigners (h : Heap) (r : Nat) (v : List EtchSigner) : Heap :=
  { h with signerLists := h.signerLists.set r v }

def Heap.readFiles (h : Heap) (r : Nat) : List AttachableEtchFile :=
  h.fileLists.getD r []

def Heap.writeFiles (h : Heap) (r : Nat) (v : List AttachableEtchFile) : Heap :=
  { h with fileLists := h.fileLists.set r v }

def Heap.readFills (h : Heap) (r : Nat) : List (String × FillData) :=
  h.fillMaps.getD r []

def Heap.writeFills (h : Heap) (r : Nat) (v : List (String × FillData)) : Heap :=
  { h with fillMaps := h.fillMaps.set r v }

def Heap.allocSigners (h : Heap) (v : List EtchSigner) : Heap × Nat :=
  ({ h with signerLists := h.signerLists ++ [v] }, h.signerLists.length)

def Heap.allocFiles (h : Heap) (v : List AttachableEtchFile) : Heap × Nat :=
  ({ h with fileLists := h.fileLists ++ [v] }, h.fileLists.length)

def Heap.allocFills (h : Heap) (v : List (String × FillData)) : Heap × Nat :=
  ({ h with fillMaps := h.fillMaps ++ [v] }, h.fillMaps.length)

/-- The builder object (`class CreateEtchPacket`): packet-level scalar
fields plus references to its three mutable collection cells. -/
structure CreateEtchPacket where
  name : Option String := none
  signature_email_subject : Option String := none
  signature_email_body : Option String := none
  signature_page_options : Option (List (String × String)) := none
  signersRef : Nat := 0
  filesRef : Nat := 0
  filePayloadsRef : Nat := 0
  is_draft : Bool := false
  is_test : Bool := true
  payload : Option CreateEtchPacketPayload := none
  webhook_url : Option String := none
  reply_to_name : Option String := none
  reply_to_email : Option String := none
  merge_pdfs : Option Bool := none
  enable_emails : Option EnableEmails := none
  create_cast_templates_from_uploads : Option Bool := none
  duplicate_casts : Option Bool := none
deriving DecidableEq

/-- The keyword arguments of `CreateEtchPacket.__init__`, with the
source's default values. -/
structure InitArgs where
  name : Option String := none
  signature_email_subject : Option String := none
  signature_email_body : Option String := none
  signers : Option (List EtchSigner) := none
  files : Option (List AttachableEtchFile) := none
  file_payloads : Option (List (String × FillData)) := none
  signature_page_options : Option (List (String × String)) := none
  is_draft : Bool := false
  is_test : Bool := true
  payload : Option CreateEtchPacketPayload := none
  webhook_url : Option String := none
  reply_to_name : Option String := none
  reply_to_email : Option String := none
  merge_pdfs : Option Bool := none
  enable_emails : Option EnableEmails := none
  create_cast_templates_from_uploads : Option Bool := none
  duplicate_casts : Option Bool := none
deriving DecidableEq

/-- Translation of `CreateEtchPacket.__init__` (lines 92-135).  The source
raises `TypeError` when `not payload and not name` (Python truthiness:
`payload` is falsy exactly when `None`, `name` when `None` or empty).
Otherwise it binds the scalar attributes and creates the three mutable
collections (`signers or []`, `files or []`, `file_payloads or {}`),
modelled as freshly allocated heap cells holding the given contents. -/
def CreateEtchPacket.init (a : InitArgs) (h : Heap) :
    Except PyErr (CreateEtchPacket × Heap) :=
  if a.payload.isNone && strFalsy a.name then
    .error (.typeError "Missing 2 required positional arguments: name and signature_email_subject")
  else
    let (h1, sRef) := h.allocSigners (a.signers.getD [])
    let (h2, fRef) := h1.allocFiles (a.files.getD [])
    let (h3, pRef) := h2.allocFills (a.file_payloads.getD [])
    .ok ({ name := a.name
         , signature_email_subject := a.signature_email_subject
         , signature_email_body := a.signature_email_body
         , signature_page_options := a.signature_page_options
         , signersRef := sRef
         , filesRef := fRef
         , filePayloadsRef := pRef
         , is_draft := a.is_draft
         , is_test := a.is_test
         , payload := a.payload
         , webhook_url := a.webhook_url
         , reply_to_name := a.reply_to_name
         , reply_to_email := a.reply_to_email
         , merge_pdfs := a.merge_pdfs
         , enable_emails := a.enable_emails
         , create_cast_templates_from_uploads := a.create_cast_templates_from_uploads
         , duplicate_casts := a.duplicate_casts }, h3)

/-- Python `max` over a nonempty list of ints (the source only calls it on
a nonempty list; the empty case is arbitrary). -/
def listMax : List Int → Int
  | [] => 0
  | x :: xs => xs.foldl max x

/-- Translation of `CreateEtchPacket.add_signer` (lines 158-189).  The
dict-input branch converts through the `EtchSigner` constructor and the
non-dict/non-`EtchSigner` branch cannot arise in the typed embedding, so
the input is an `EtchSigner`.  The source validates `signer_type`, then
assigns a generated id when `not data.id`, then, when
`not data.routing_order` (Python truthiness: unset or zero), assigns
`max((s.routing_order or 0) for s in self.signers) + 1` (or `1` when the
list is empty), and finally appends to `self.signers`. -/
def CreateEtchPacket.add_signer (b : CreateEtchPacket) (signer : EtchSigner)
    (h : Heap) : Except PyErr Heap :=
  if !(signer.signer_type == "embedded" || signer.signer_type == "email") then
    .error (.valueError "Etch signer signer_type must be only embedded or email")
  else
    let data :=
      if strFalsy signer.id then
        { signer with id := some (create_unique_id "signer") }
      else signer
    let cur := h.readSigners b.signersRef
    let data :=
      if intFalsy data.routing_order then
        let num : Int :=
          if cur.isEmpty then 1
          else listMax (cur.map (fun s => s.routing_order.getD 0)) + 1
        { data with routing_order := some num }
      else data
    .ok (h.writeSigners b.signersRef (cur ++ [data]))

/-- The content-type inference step of `add_file` (lines 197-207): when the
file is a `DocumentUpload` whose content is a byte stream with no
`content_type` set, the content type guessed from the stream's filename
is stored on it; every other input is left untouched. -/
def inferContentType : AttachableEtchFile → AttachableEtchFile
  | .upload d =>
    match d.file with
    | .stream nm none => .upload { d with file := .stream nm (guess_type nm) }
    | _ => .upload d
  | f => f

/-- Translation of `CreateEtchPacket.add_file` (lines 191-209): runs the
content-type inference, then appends to `self.files`.  The method never
raises. -/
def CreateEtchPacket.add_file (b : CreateEtchPacket) (file : AttachableEtchFile)
    (h : Heap) : Heap :=
  h.writeFiles b.filesRef (h.readFiles b.filesRef ++ [inferContentType file])

/-- Python dict assignment `m[k] = v`: overwrite the entry when the key is
present, else append a new entry (insertion order preserved). -/
def dictSet : List (String × FillData) → String → FillData → List (String × FillData)
  | [], k, v => [(k, v)]
  | kv :: rest, k, v =>
    if kv.1 = k then (k, v) :: rest else kv :: dictSet rest k v

/-- Python dict lookup `m.get(k)`. -/
def dictGet (m : List (String × FillData)) (k : String) : Option FillData :=
  (m.find? (fun kv => kv.1 == k)).map (fun kv => kv.2)

/-- Translation of `CreateEtchPacket.add_file_payloads` (lines 211-218):
raises `ValueError` when `file_id` is not the id of any file in
`self.files` (the source's `if f` filter in the comprehension is the
identity here, since in the typed embedding every list element is a real,
hence truthy, object), else sets `self.file_payloads[file_id]`. -/
def CreateEtchPacket.add_file_payloads (b : CreateEtchPacket) (file_id : String)
    (fill : FillData) (h : Heap) : Except PyErr Heap :=
  let existing_files := (h.readFiles b.filesRef).map AttachableEtchFile.id
  if !(existing_files.contains file_id) then
    .error (.valueError (file_id ++ " was not added as a file. Please add the file first before adding a fill payload."))
  else
    .ok (h.writeFills b.filePayloadsRef
      (dictSet (h.readFills b.filePayloadsRef) file_id fill))

/-- Translation of `CreateEtchPacket.get_file_payloads` (lines 220-229):
raises `ValueError` at the first key of `self.file_payloads` that is not
the id of any file in `self.files`, else returns `self.file_payloads`
itself — i.e. the reference to the builder's fill-payload cell. -/
def CreateEtchPacket.get_file_payloads (b : CreateEtchPacket) (h : Heap) :
    Except PyErr Nat :=
  let existing_files := (h.readFiles b.filesRef).map AttachableEtchFile.id
  match (h.readFills b.filePayloadsRef).find?
      (fun kv => !(existing_files.contains kv.1)) with
  | some kv =>
    .error (.valueError (kv.1 ++ " was not added as a file. Please add that file or remove its fill payload before attempting to create an Etch payload."))
  | none => .ok b.filePayloadsRef

/-- Translation of `CreateEtchPacket.create_payload` (lines 231-264): when
`self.payload` is set it is returned unchanged; otherwise a `TypeError`
is raised when `not self.name`; otherwise the fill payloads are validated
through `get_file_payloads` and the payload is assembled, storing the
references to the builder's own signer list, file list and fill-payload
map (`signers=self.signers`, `files=self.files`,
`data=CreateEtchFilePayload(payloads=self.get_file_payloads())`) and
`self.signature_page_options or {}` for the page options. -/
def CreateEtchPacket.create_payload (b : CreateEtchPacket) (h : Heap) :
    Except PyErr (CreateEtchPacketPayload × Heap) :=
  match b.payload with
  | some p => .ok (p, h)
  | none =>
    if strFalsy b.name then
      .error (.typeError "name and signature_email_subject cannot be None")
    else
      match b.get_file_payloads h with
      | .error e => .error e
      | .ok dRef =>
        .ok ({ is_test := b.is_test
             , is_draft := b.is_draft
             , name := b.name.getD ""
             , signersRef := b.signersRef
             , filesRef := b.filesRef
             , dataRef := dRef
             , signature_email_subject := b.signature_email_subject
             , signature_email_body := b.signature_email_body
             , signature_page_options := b.signature_page_options.getD []
             , webhook_url := b.webhook_url
             , reply_to_email := b.reply_to_email
             , reply_to_name := b.reply_to_name
             , merge_pdfs := b.merge_pdfs
             , enable_emails := b.enable_emails
             , create_cast_templates_from_uploads := b.create_cast_templates_from_uploads
             , duplicate_casts := b.duplicate_casts }, h)

/-- A raw mapping accepted by `create_from_dict`: the top-level keys of the
dict, each absent or present.  The `signers` entries are built through the
(spec-modelled, total) `EtchSigner` constructor and the `files` entries
through the `DocumentUpload` constructor, as in the source. -/
structure PacketDict where
  name : Option String := none
  signature_email_subject : Option String := none
  signature_email_body : Option String := none
  file_payloads : Option (List (String × FillData)) := none
  signature_page_options : Option (List (String × String)) := none
  is_draft : Option Bool := none
  is_test : Option Bool := none
  payload : Option CreateEtchPacketPayload := none
  webhook_url : Option String := none
  reply_to_name : Option String := none
  reply_to_email : Option String := none
  merge_pdfs : Option Bool := none
  enable_emails : Option EnableEmails := none
  create_cast_templates_from_uploads : Option Bool := none
  duplicate_casts : Option Bool := none
  signers : Option (List EtchSigner) := none
  files : Option (List DocumentUpload) := none
deriving DecidableEq

/-- The keyword arguments passed by `create_from_dict` to the constructor:
`{k: v for k, v in payload.items() if k not in ["signers", "files"]}` —
every key of the mapping except `signers` and `files`; an absent key
leaves the constructor's default. -/
def PacketDict.toInitArgs (d : PacketDict) : InitArgs :=
  { name := d.name
  , signature_email_subject := d.signature_email_subject
  , signature_email_body := d.signature_email_body
  , signers := none
  , files := none
  , file_payloads := d.file_payloads
  , signature_page_options := d.signature_page_options
  , is_draft := d.is_draft.getD false
  , is_test := d.is_test.getD true
  , payload := d.payload
  , webhook_url := d.webhook_url
  , reply_to_name := d.reply_to_name
  , reply_to_email := d.reply_to_email
  , merge_pdfs := d.merge_pdfs
  , enable_emails := d.enable_emails
  , create_cast_templates_from_uploads := d.create_cast_templates_from_uploads
  , duplicate_casts := d.duplicate_casts }

/-- Folding `add_signer` over a list of signers: the signer-adding loop of
`create_from_dict`, and the shape of any sequence of `add_signer` calls. -/
def addAllSigners (b : CreateEtchPacket) (ss : List EtchSigner) (h : Heap) :
    Except PyErr Heap :=
  ss.foldlM (fun hh s => b.add_signer s hh) h

/-- The file-adding loop of `create_from_dict`: each entry is wrapped by
the `DocumentUpload` constructor and passed to `add_file`. -/
def addAllFiles (b : CreateEtchPacket) (fs : List DocumentUpload) (h : Heap) : Heap :=
  fs.foldl (fun hh f => b.add_file (.upload f) hh) h

/-- Translation of `CreateEtchPacket.create_from_dict` (lines 137-156):
construct from the mapping minus `signers`/`files`, wrapping the
constructor's `TypeError` into a `ValueError` raised `from` it; then add
each listed signer via `add_signer` and each listed file via `add_file`.
Errors raised by those loops propagate unchanged. -/
def CreateEtchPacket.create_from_dict (d : PacketDict) (h : Heap) :
    Except PyErr (CreateEtchPacket × Heap) :=
  match CreateEtchPacket.init d.toInitArgs h with
  | .error e =>
    .error (.valueErrorFrom "payload must be a valid CreateEtchPacket instance or dict." e)
  | .ok (b, h1) =>
    match (match d.signers with
           | none => Except.ok h1
           | some ss => addAllSigners b ss h1) with
    | .error e => .error e
    | .ok h2 =>
      let h3 := match d.files with
        | none => h2
        | some fs => addAllFiles b fs h2
      .ok (b, h3)

/-! Helper lemmas about the heap and the operations. -/

theorem list_getD_set_self {α : Type} (l : List α) (i : Nat) (v d : α)
    (hi : i < l.length) : (l.set i v).getD i d = v := by
  induction l generalizing i with
  | nil => simp at hi
  | cons x xs ih =>
    cases i with
    | zero => rfl
    | succ n => simpa using ih n (by simpa using hi)

theorem readSigners_writeSigners (h : Heap) (r : Nat) (v : List EtchSigner)
    (hr : r < h.signerLists.length) : (h.writeSigners r v).readSigners r = v :=
  list_getD_set_self _ _ _ _ hr

theorem readFills_writeFills (h : Heap) (r : Nat) (v : List (String × FillData))
    (hr : r < h.fillMaps.length) : (h.writeFills r v).readFills r = v :=
  list_getD_set_self _ _ _ _ hr

theorem writeSigners_length (h : Heap) (r : Nat) (v : List EtchSigner) :
    (h.writeSigners r v).signerLists.length = h.signerLists.length := by
  simp [Heap.writeSigners]

/-- An `ok` result of `get_file_payloads` is always the builder's own
fill-payload cell reference. -/
theorem get_file_payloads_ok (b : CreateEtchPacket) (h : Heap) (r : Nat)
    (hok : b.get_file_payloads h = .ok r) : r = b.filePayloadsRef := by
  simp only [CreateEtchPacket.get_file_payloads] at hok
  split at hok
  · exact absurd hok (by simp)
  · simpa using hok.symm

/-- create_payload never changes the heap: an `ok` result carries the input
heap back unchanged. -/
theorem create_payload_ok_heap (b : CreateEtchPacket) (h h' : Heap)
    (p : CreateEtchPacketPayload) (hok : b.create_payload h = .ok (p, h')) :
    h' = h := by
  unfold CreateEtchPacket.create_payload at hok
  split at hok
  · simp only [Except.ok.injEq, Prod.mk.injEq] at hok
    exact hok.2.symm
  · split at hok
    · exact absurd hok (by simp)
    · split at hok
      · exact absurd hok (by simp)
      · simp only [Except.ok.injEq, Prod.mk.injEq] at hok
        exact hok.2.symm

/-! Concrete scenario values used by the witnesses and counterexamples:
a builder freshly constructed with name "packet" on an empty heap, and
the payload it materializes. -/

def demoB : CreateEtchPacket := { name := some "packet" }

def demoH0 : Heap := { signerLists := [[]], fileLists := [[]], fillMaps := [[]] }

def demoPayload : CreateEtchPacketPayload := { name := "packet" }

/-- The heap after adding one all-default signer to the fresh builder. -/
def demoH1 : Heap :=
  { signerLists := [[{ id := some "signer-generated", routing_order := some 1 }]]
  , fileLists := [[]], fillMaps := [[]] }

/-- A builder with no name that carries a pre-supplied payload, together
with a heap whose fill-payload cell references a file id that was never
added: the passthrough scenario of claim C10. -/
def demoPre : CreateEtchPacket := { payload := some demoPayload }

def demoPreHeap : Heap :=
  { signerLists := [[]], fileLists := [[]], fillMaps := [[("ghost", "data")]] }

/-- A builder with neither name nor payload (an unreachable state through
`__init__`, but reachable by attribute mutation; `create_payload` guards
it explicitly). -/
def demoNoName : CreateEtchPacket := { }

/-! Claims. -/

/-- C1 (counterexample): the claim states that a payload returned by
`create_payload` is an independently owned snapshot whose signer list a
later `add_signer` cannot change.  On the source this is false:
`create_payload` stores `signers=self.signers`, the very list object the
builder keeps appending to.  Concretely: a fresh builder materializes a
payload whose signer list reads back empty; one later `add_signer` call
makes the same payload's signer list read back nonempty. -/
theorem claim_C1_counterexample :
    CreateEtchPacket.init { name := some "packet" } { } = .ok (demoB, demoH0) ∧
    demoB.create_payload demoH0 = .ok (demoPayload, demoH0) ∧
    demoH0.readSigners demoPayload.signersRef = [] ∧
    demoB.add_signer { } demoH0 = .ok demoH1 ∧
    demoH1.readSigners demoPayload.signersRef =
      [{ id := some "signer-generated", routing_order := some 1 }] ∧
    demoH1.readSigners demoPayload.signersRef ≠ [] := by
  refine ⟨rfl, rfl, rfl, rfl, rfl, by decide⟩

/-- A payload assembled by `create_payload` (no pre-supplied payload)
carries exactly the builder's own collection cell references. -/
theorem create_payload_aliases (b : CreateEtchPacket) (h h' : Heap)
    (p : CreateEtchPacketPayload) (hpre : b.payload = none)
    (hok : b.create_payload h = .ok (p, h')) :
    p.signersRef = b.signersRef ∧ p.filesRef = b.filesRef ∧
      p.dataRef = b.filePayloadsRef := by
  simp only [CreateEtchPacket.create_payload, hpre] at hok
  split at hok
  · exact absurd hok (by simp)
  · split at hok
    · exact absurd hok (by simp)
    · rename_i dRef hg
      have hd := get_file_payloads_ok b h dRef hg
      simp only [Except.ok.injEq, Prod.mk.injEq] at hok
      rw [← hok.1]
      exact ⟨rfl, rfl, hd⟩

/-- C1 (amended): the payload returned by `create_payload` on the
assembling path is not an independent snapshot: it aliases the builder's
own collections — its signer-list, file-list and fill-payload references
are exactly the builder's cell references, so later builder mutation is
visible through an already-returned payload. -/
theorem claim_C1 (b : CreateEtchPacket) (h h' : Heap) (p : CreateEtchPacketPayload)
    (hpre : b.payload = none) (hok : b.create_payload h = .ok (p, h')) :
    p.signersRef = b.signersRef ∧ p.filesRef = b.filesRef ∧
      p.dataRef = b.filePayloadsRef :=
  create_payload_aliases b h h' p hpre hok

theorem claim_C1_witness :
    demoPayload.signersRef = demoB.signersRef ∧
    demoPayload.filesRef = demoB.filesRef ∧
    demoPayload.dataRef = demoB.filePayloadsRef :=
  claim_C1 demoB demoH0 demoH0 demoPayload rfl rfl

/-- C7: construction raises the missing-argument `TypeError` (the spec's
ConfigurationError) exactly when the `payload` argument is `None` and the
`name` argument is absent — absence following the source's Python
truthiness test `not name`, i.e. `None` or the empty string; and on a
builder without a pre-supplied payload and with its name absent,
`create_payload` raises the corresponding `TypeError`. -/
theorem claim_C7 (a : InitArgs) (h : Heap) (b : CreateEtchPacket) (h2 : Heap) :
    ((∃ e, CreateEtchPacket.init a h = .error e) ↔
      (a.payload = none ∧ strFalsy a.name = true)) ∧
    (b.payload = none → strFalsy b.name = true →
      b.create_payload h2 =
        .error (.typeError "name and signature_email_subject cannot be None")) := by
  constructor
  · constructor
    · rintro ⟨e, he⟩
      unfold CreateEtchPacket.init at he
      split at he
      · rename_i hcond
        simp only [Bool.and_eq_true, Option.isNone_iff_eq_none] at hcond
        exact hcond
      · exact absurd he (by simp)
    · rintro ⟨hp, hn⟩
      refine ⟨.typeError "Missing 2 required positional arguments: name and signature_email_subject", ?_⟩
      unfold CreateEtchPacket.init
      rw [if_pos]
      simp [hp, hn]
  · intro hp hn
    unfold CreateEtchPacket.create_payload
    rw [hp]
    simp [hn]

theorem claim_C7_witness :
    (∃ e, CreateEtchPacket.init { } { } = .error e) ∧
    demoNoName.create_payload demoH0 =
      .error (.typeError "name and signature_email_subject cannot be None") :=
  ⟨(claim_C7 { } { } demoNoName demoH0).1.mpr ⟨rfl, rfl⟩,
   (claim_C7 { } { } demoNoName demoH0).2 rfl rfl⟩

/-- C9: `create_payload` is read-only on the builder state — an `ok` run
returns the heap unchanged — so calling it twice in a row with no
mutation in between returns equal payload snapshots. -/
theorem claim_C9 (b : CreateEtchPacket) (h h' : Heap) (p : CreateEtchPacketPayload)
    (hok : b.create_payload h = .ok (p, h')) :
    h' = h ∧ b.create_payload h' = .ok (p, h') := by
  have hh := create_payload_ok_heap b h h' p hok
  subst hh
  exact ⟨rfl, hok⟩

theorem claim_C9_witness :
    demoH0 = demoH0 ∧ demoB.create_payload demoH0 = .ok (demoPayload, demoH0) :=
  claim_C9 demoB demoH0 demoH0 demoPayload rfl

/-- C10: a builder holding a pre-supplied payload returns it from
`create_payload` immediately, with no name check and no
fill-payload-consistency pass; the witness exercises a builder whose name
is unset and whose fill-payload map references an id absent from its file
list, where `get_file_payloads` would raise. -/
theorem claim_C10 (b : CreateEtchPacket) (h : Heap) (p : CreateEtchPacketPayload)
    (hp : b.payload = some p) : b.create_payload h = .ok (p, h) := by
  unfold CreateEtchPacket.create_payload
  rw [hp]

theorem claim_C10_witness :
    demoPre.create_payload demoPreHeap = .ok (demoPayload, demoPreHeap) ∧
    demoPre.get_file_payloads demoPreHeap =
      .error (.valueError "ghost was not added as a file. Please add that file or remove its fill payload before attempting to create an Etch payload.") ∧
    demoPre.name = none :=
  ⟨claim_C10 demoPre demoPreHeap demoPayload rfl, rfl, rfl⟩

/-- C4: `add_signer` with a signer kind outside the embedded/email set
fails with the `ValueError` (the spec's ValidationError) raised before
any mutation — the error result leaves the heap, hence the builder's
signer list, untouched — and a signer kind inside the set never raises
that error: the call succeeds. -/
theorem claim_C4 (b : CreateEtchPacket) (s : EtchSigner) (h : Heap) :
    (¬(s.signer_type = "embedded" ∨ s.signer_type = "email") →
      b.add_signer s h =
        .error (.valueError "Etch signer signer_type must be only embedded or email")) ∧
    ((s.signer_type = "embedded" ∨ s.signer_type = "email") →
      ∃ h', b.add_signer s h = .ok h') := by
  constructor
  · intro hbad
    obtain ⟨h1, h2⟩ := not_or.mp hbad
    simp [CreateEtchPacket.add_signer, h1, h2]
  · intro hgood
    have hb : (s.signer_type == "embedded" || s.signer_type == "email") = true := by
      rcases hgood with h1 | h1 <;> simp [h1]
    simp only [CreateEtchPacket.add_signer, hb, Bool.not_true]
    exact ⟨_, rfl⟩

theorem claim_C4_witness :
    demoB.add_signer { signer_type := "sms" } demoH0 =
      .error (.valueError "Etch signer signer_type must be only embedded or email") ∧
    (∃ h', demoB.add_signer { signer_type := "embedded" } demoH0 = .ok h') :=
  ⟨(claim_C4 demoB { signer_type := "sms" } demoH0).1 (by decide),
   (claim_C4 demoB { signer_type := "embedded" } demoH0).2 (Or.inl rfl)⟩

/-- C3 (counterexample): the claim states that any explicitly set routing
order, including `0`, is preserved by `add_signer`.  The source tests
`if not data.routing_order`, and `0` is falsy in Python, so a signer
added with routing order `0` comes out with routing order `1`. -/
theorem claim_C3_counterexample :
    demoB.add_signer { routing_order := some 0 } demoH0 = .ok demoH1 ∧
    (demoH1.readSigners demoB.signersRef).map (fun s => s.routing_order) = [some 1] ∧
    (demoH1.readSigners demoB.signersRef).map (fun s => s.routing_order) ≠ [some 0] :=
  ⟨rfl, rfl, by decide⟩

/-- C3 (amended): a caller-supplied routing order is preserved unchanged
for every nonzero integer value; the value `0` is falsy under the
source's `if not data.routing_order` test and is therefore treated as
unset and replaced by the computed default. -/
theorem claim_C3 (b : CreateEtchPacket) (s : EtchSigner) (h : Heap) (r : Int)
    (hro : s.routing_order = some r) (hr : r ≠ 0)
    (hty : s.signer_type = "embedded" ∨ s.signer_type = "email") :
    ∃ t, b.add_signer s h =
        .ok (h.writeSigners b.signersRef (h.readSigners b.signersRef ++ [t])) ∧
      t.routing_order = some r := by
  have hb : (s.signer_type == "embedded" || s.signer_type == "email") = true := by
    rcases hty with h1 | h1 <;> simp [h1]
  by_cases hid : strFalsy s.id
  · exact ⟨{ s with id := some (create_unique_id "signer") }, by
      simp [CreateEtchPacket.add_signer, hb, hid, hro, intFalsy, hr], hro⟩
  · exact ⟨s, by
      simp [CreateEtchPacket.add_signer, hb, hid, hro, intFalsy, hr], hro⟩

theorem claim_C3_witness :
    ∃ t, demoB.add_signer { routing_order := some 5 } demoH0 =
        .ok (demoH0.writeSigners demoB.signersRef
          (demoH0.readSigners demoB.signersRef ++ [t])) ∧
      t.routing_order = some 5 :=
  claim_C3 demoB { routing_order := some 5 } demoH0 5 rfl (by decide) (Or.inr rfl)

/-- The content-type inference step on a stream upload without a content
type rewrites exactly that field to the guessed MIME type. -/
theorem inferContentType_stream_none (d : DocumentUpload) (nm : String)
    (hfile : d.file = .stream nm none) :
    inferContentType (.upload d) =
      .upload { d with file := .stream nm (guess_type nm) } := by
  have hstep : inferContentType (.upload d) =
      (match d.file with
       | .stream s none => .upload { d with file := .stream s (guess_type s) }
       | _ => .upload d) := rfl
  rw [hstep, hfile]

/-- C6: `add_file` on a document upload carrying inline stream content
with no content type set stores the MIME type guessed from the stream's
filename on the attachment and appends it — in every case, whether or
not the guess resolves; for filename "report.pdf" the guess is the PDF
MIME type, and an unresolvable extension leaves the content type unset. -/
theorem claim_C6 (b : CreateEtchPacket) (d : DocumentUpload) (nm : String) (h : Heap)
    (hfile : d.file = .stream nm none) :
    b.add_file (.upload d) h =
      h.writeFiles b.filesRef (h.readFiles b.filesRef ++
        [.upload { d with file := .stream nm (guess_type nm) }]) ∧
    guess_type "report.pdf" = some "application/pdf" ∧
    guess_type "report.xyz" = none := by
  refine ⟨?_, rfl, rfl⟩
  rw [CreateEtchPacket.add_file, inferContentType_stream_none d nm hfile]

theorem claim_C6_witness :
    demoB.add_file (.upload { id := "doc1", file := .stream "report.pdf" none }) demoH0 =
      demoH0.writeFiles demoB.filesRef (demoH0.readFiles demoB.filesRef ++
        [.upload { id := "doc1"
                 , file := .stream "report.pdf" (guess_type "report.pdf") }]) ∧
    guess_type "report.pdf" = some "application/pdf" ∧
    guess_type "report.xyz" = none :=
  claim_C6 demoB { id := "doc1", file := .stream "report.pdf" none } "report.pdf" demoH0 rfl

theorem dictGet_dictSet_self (m : List (String × FillData)) (k : String)
    (v : FillData) : dictGet (dictSet m k v) k = some v := by
  induction m with
  | nil => simp [dictSet, dictGet]
  | cons kv rest ih =>
    by_cases hk : kv.1 = k
    · simp [dictSet, hk, dictGet]
    · have hb : (kv.1 == k) = false := beq_eq_false_iff_ne.mpr hk
      simp only [dictSet, if_neg hk]
      simpa [dictGet, List.find?, hb] using ih

theorem dictGet_dictSet_other (m : List (String × FillData)) (k k' : String)
    (v : FillData) (hne : k' ≠ k) :
    dictGet (dictSet m k v) k' = dictGet m k' := by
  have hb0 : (k == k') = false := beq_eq_false_iff_ne.mpr (Ne.symm hne)
  induction m with
  | nil => simp [dictSet, dictGet, List.find?, hb0]
  | cons kv rest ih =>
    by_cases hk : kv.1 = k
    · have hb1 : (kv.1 == k') = false := by rw [hk]; exact hb0
      simp [dictSet, if_pos hk, dictGet, List.find?, hb0, hb1]
    · simp only [dictSet, if_neg hk]
      by_cases hk' : kv.1 = k'
      · have hb2 : (kv.1 == k') = true := by simp [hk']
        simp [dictGet, List.find?, hb2]
      · have hb2 : (kv.1 == k') = false := beq_eq_false_iff_ne.mpr hk'
        simpa [dictGet, List.find?, hb2] using ih

/-- C5: `add_file_payloads` fails with the `ValueError` (the spec's
ValidationError) exactly when the given id is not the id of any file in
the builder's file list; on success it inserts or overwrites exactly the
entry for that id in the fill-payload map, leaves every other entry
unchanged, and a subsequent successful `create_payload` on the assembling
path (no pre-supplied payload, which would bypass the builder's fill map
entirely) exposes the data under that id through the payload's data
block. -/
theorem claim_C5 (b : CreateEtchPacket) (fid : String) (fill : FillData) (h : Heap)
    (href : b.filePayloadsRef < h.fillMaps.length) :
    (fid ∉ (h.readFiles b.filesRef).map AttachableEtchFile.id →
      b.add_file_payloads fid fill h =
        .error (.valueError (fid ++ " was not added as a file. Please add the file first before adding a fill payload."))) ∧
    (fid ∈ (h.readFiles b.filesRef).map AttachableEtchFile.id →
      ∃ h', b.add_file_payloads fid fill h = .ok h' ∧
        dictGet (h'.readFills b.filePayloadsRef) fid = some fill ∧
        (∀ k, k ≠ fid →
          dictGet (h'.readFills b.filePayloadsRef) k =
            dictGet (h.readFills b.filePayloadsRef) k) ∧
        (∀ p h'', b.payload = none → b.create_payload h' = .ok (p, h'') →
          dictGet (h''.readFills p.dataRef) fid = some fill)) := by
  constructor
  · intro hnot
    simp [CreateEtchPacket.add_file_payloads]
    simpa using hnot
  · intro hmem
    refine ⟨h.writeFills b.filePayloadsRef
      (dictSet (h.readFills b.filePayloadsRef) fid fill), ?_, ?_, ?_, ?_⟩
    · simp [CreateEtchPacket.add_file_payloads]
      simpa using hmem
    · rw [readFills_writeFills _ _ _ href]
      exact dictGet_dictSet_self _ _ _
    · intro k hk
      rw [readFills_writeFills _ _ _ href]
      exact dictGet_dictSet_other _ _ _ _ hk
    · intro p h'' hpre hok
      have hh := create_payload_ok_heap b _ h'' p hok
      subst hh
      have hd := (create_payload_aliases b _ _ p hpre hok).2.2
      rw [hd, readFills_writeFills _ _ _ href]
      exact dictGet_dictSet_self _ _ _

/-- The scenario for the C5 witness: the fresh builder after one file was
added (id "doc1"), and the heap after its fill payload was set. -/
def demoHFile : Heap :=
  { signerLists := [[]]
  , fileLists := [[.castRef "doc1" "cast1"]], fillMaps := [[]] }

theorem claim_C5_witness :
    (demoB.add_file_payloads "ghost" "gdata" demoHFile =
      .error (.valueError ("ghost" ++ " was not added as a file. Please add the file first before adding a fill payload."))) ∧
    (∃ h', demoB.add_file_payloads "doc1" "ddata" demoHFile = .ok h' ∧
      dictGet (h'.readFills demoB.filePayloadsRef) "doc1" = some "ddata" ∧
      (∀ k, k ≠ "doc1" →
        dictGet (h'.readFills demoB.filePayloadsRef) k =
          dictGet (demoHFile.readFills demoB.filePayloadsRef) k) ∧
      (∀ p h'', demoB.payload = none → demoB.create_payload h' = .ok (p, h'') →
        dictGet (h''.readFills p.dataRef) "doc1" = some "ddata")) :=
  ⟨(claim_C5 demoB "ghost" "gdata" demoHFile (by decide)).1 (by decide),
   (claim_C5 demoB "doc1" "ddata" demoHFile (by decide)).2 (by decide)⟩

theorem listMax_append_singleton (l : List Int) (a : Int) :
    listMax (l ++ [a]) = if l.isEmpty then a else max (listMax l) a := by
  cases l with
  | nil => simp [listMax]
  | cons x xs => simp [listMax, List.foldl_append]

/-- The maximum of the ascending routing orders 1..(k+1) is k+1. -/
theorem listMax_ascending (k : Nat) :
    listMax ((List.range (k + 1)).map (fun i : Nat => ((i : Int) + 1))) = (k : Int) + 1 := by
  induction k with
  | zero => rfl
  | succ n ih =>
    rw [List.range_succ, List.map_append, List.map_cons, List.map_nil,
      listMax_append_singleton]
    have hne : ((List.range (n + 1)).map (fun i : Nat => ((i : Int) + 1))).isEmpty = false := by
      simp [List.isEmpty_iff]
    rw [hne, ih]
    have hle : ((n : Int) + 1) ≤ ((n + 1 : Nat) : Int) + 1 := by push_cast; omega
    simp [max_eq_right hle]

/-- One `add_signer` call on a signer with no routing order appends the
signer (its id filled in when absent) with the computed default routing
order: one more than the running maximum, or 1 on an empty list. -/
theorem add_signer_default (b : CreateEtchPacket) (s : EtchSigner) (h : Heap)
    (hb : (s.signer_type == "embedded" || s.signer_type == "email") = true)
    (hro : s.routing_order = none) :
    b.add_signer s h = .ok (h.writeSigners b.signersRef
      ((h.readSigners b.signersRef) ++
        [{ (if strFalsy s.id
            then { s with id := some (create_unique_id "signer") } else s) with
           routing_order := some (if (h.readSigners b.signersRef).isEmpty then 1
             else listMax ((h.readSigners b.signersRef).map
               (fun t => t.routing_order.getD 0)) + 1) }])) := by
  by_cases hid : strFalsy s.id <;>
    simp [CreateEtchPacket.add_signer, hb, hid, hro, intFalsy]

/-- Folding `add_signer` over signers that all carry a valid kind and no
routing order succeeds and extends the ascending default routing orders
1..k to 1..(k + n). -/
theorem addAllSigners_orders (b : CreateEtchPacket) (ss : List EtchSigner) :
    ∀ (h : Heap) (k : Nat),
      (∀ s ∈ ss, (s.signer_type = "embedded" ∨ s.signer_type = "email") ∧
        s.routing_order = none) →
      b.signersRef < h.signerLists.length →
      (h.readSigners b.signersRef).map (fun s => s.routing_order) =
        (List.range k).map (fun i : Nat => some ((i : Int) + 1)) →
      ∃ h', addAllSigners b ss h = .ok h' ∧
        h'.signerLists.length = h.signerLists.length ∧
        (h'.readSigners b.signersRef).map (fun s => s.routing_order) =
          (List.range (k + ss.length)).map (fun i : Nat => some ((i : Int) + 1)) := by
  induction ss with
  | nil =>
    intro h k _ _ hinv
    exact ⟨h, rfl, rfl, by simpa using hinv⟩
  | cons s rest ih =>
    intro h k hval hr hinv
    obtain ⟨hty, hro⟩ := hval s (List.mem_cons_self s rest)
    have hvalrest : ∀ t ∈ rest, (t.signer_type = "embedded" ∨ t.signer_type = "email") ∧
        t.routing_order = none := fun t ht => hval t (List.mem_cons_of_mem s ht)
    have hb : (s.signer_type == "embedded" || s.signer_type == "email") = true := by
      rcases hty with h1 | h1 <;> simp [h1]
    -- the appended signer and its computed routing order
    have hnum : (if (h.readSigners b.signersRef).isEmpty then (1 : Int)
        else listMax ((h.readSigners b.signersRef).map
          (fun t => t.routing_order.getD 0)) + 1) = (k : Int) + 1 := by
      cases k with
      | zero =>
        have hnil : h.readSigners b.signersRef = [] := by
          have := hinv
          simpa using this
        simp [hnil]
      | succ n =>
        have hne : (h.readSigners b.signersRef).isEmpty = false := by
          cases hcc : h.readSigners b.signersRef with
          | nil => rw [hcc] at hinv; simp [List.range_succ] at hinv
          | cons a as => rfl
        have hmap : (h.readSigners b.signersRef).map (fun t => t.routing_order.getD 0) =
            (List.range (n + 1)).map (fun i : Nat => ((i : Int) + 1)) := by
          have hcomp : (h.readSigners b.signersRef).map (fun t => t.routing_order.getD 0) =
              ((h.readSigners b.signersRef).map (fun t => t.routing_order)).map
                (fun o => o.getD 0) := by
            simp [List.map_map]
          rw [hcomp, hinv, List.map_map]
          rfl
        rw [hne, hmap, listMax_ascending]
        simp
    set data1 := (if strFalsy s.id
        then { s with id := some (create_unique_id "signer") } else s) with hd1
    have hstep := add_signer_default b s h hb hro
    rw [← hd1, hnum] at hstep
    set h1 := h.writeSigners b.signersRef
      ((h.readSigners b.signersRef) ++ [{ data1 with routing_order := some ((k : Int) + 1) }])
      with hh1
    have hr1 : b.signersRef < h1.signerLists.length := by
      rw [hh1, writeSigners_length]; exact hr
    have hinv1 : (h1.readSigners b.signersRef).map (fun t => t.routing_order) =
        (List.range (k + 1)).map (fun i : Nat => some ((i : Int) + 1)) := by
      rw [hh1, readSigners_writeSigners _ _ _ hr, List.map_append, hinv,
        List.range_succ, List.map_append]
      rfl
    obtain ⟨h', hfold, hlen, hords⟩ := ih h1 (k + 1) hvalrest hr1 hinv1
    refine ⟨h', ?_, ?_, ?_⟩
    · simpa [addAllSigners, hstep] using hfold
    · rw [hlen, hh1, writeSigners_length]
    · have hk : k + (s :: rest).length = (k + 1) + rest.length := by
        simp; omega
      rw [hk]
      exact hords

/-- C2: on a freshly constructed builder, any sequence of `add_signer`
calls whose signers all carry a valid signer kind (so every call
succeeds) and no explicit routing order assigns the routing orders
1, 2, ..., n in call order: each default is the running maximum plus
one, so the defaults are exactly the ascending integers from 1. -/
theorem claim_C2 (nm : String) (hnm : nm ≠ "") (ss : List EtchSigner)
    (hval : ∀ s ∈ ss, (s.signer_type = "embedded" ∨ s.signer_type = "email") ∧
      s.routing_order = none)
    (b : CreateEtchPacket) (h0 : Heap)
    (hinit : CreateEtchPacket.init { name := some nm } { } = .ok (b, h0)) :
    ∃ h', addAllSigners b ss h0 = .ok h' ∧
      (h'.readSigners b.signersRef).map (fun s => s.routing_order) =
        (List.range ss.length).map (fun i : Nat => some ((i : Int) + 1)) := by
  have hn : strFalsy (some nm) = false := by simp [strFalsy, hnm]
  simp only [CreateEtchPacket.init, hn, Heap.allocSigners, Heap.allocFiles,
    Heap.allocFills, Bool.and_false, Bool.false_eq_true, if_false,
    Except.ok.injEq, Prod.mk.injEq] at hinit
  obtain ⟨hb, hh⟩ := hinit
  have hr : b.signersRef < h0.signerLists.length := by
    rw [← hb, ← hh]; simp
  have hempty : (h0.readSigners b.signersRef).map (fun s => s.routing_order) =
      (List.range 0).map (fun i : Nat => some ((i : Int) + 1)) := by
    rw [← hb, ← hh]; rfl
  obtain ⟨h', hfold, _, hords⟩ := addAllSigners_orders b ss h0 0 hval hr hempty
  exact ⟨h', hfold, by simpa using hords⟩

def demoSigner1 : EtchSigner := { name := some "s1", signer_type := "email" }

def demoSigner2 : EtchSigner := { name := some "s2", signer_type := "embedded" }

theorem claim_C2_witness :
    ∃ h', addAllSigners demoB [demoSigner1, demoSigner2] demoH0 = .ok h' ∧
      (h'.readSigners demoB.signersRef).map (fun s => s.routing_order) =
        (List.range 2).map (fun i : Nat => some ((i : Int) + 1)) :=
  claim_C2 "packet" (by decide) [demoSigner1, demoSigner2] (by decide) demoB demoH0 rfl

/-- The mapping used to exhibit the C8 counterexample: a valid name plus
one signer whose kind is invalid, so the nested `add_signer` call raises
during the import. -/
def demoBadDict : PacketDict :=
  { name := some "packet", signers := some [{ signer_type := "bogus" }] }

/-- C8 (counterexample): the claim states that every error raised by a
nested operation during `create_from_dict` is wrapped into a single
ValidationError carrying the original cause.  On the source, only the
constructor's `TypeError` is wrapped (`raise ValueError(...) from e`);
the `ValueError` raised by a nested `add_signer` call propagates as it
is, carrying no cause: the returned error is a bare `valueError`, not a
`valueErrorFrom` wrapping the nested error. -/
theorem claim_C8_counterexample :
    CreateEtchPacket.create_from_dict demoBadDict { } =
      .error (.valueError "Etch signer signer_type must be only embedded or email") := rfl

/-- C8 (amended): `create_from_dict` applies construction with every
mapping key except `signers` and `files`, then adds each listed signer
through `add_signer` and each listed file through `add_file` (so
per-entity validation fires); the construction error is wrapped into a
single ValidationError carrying the original cause, while an error
raised by the nested signer-adding pass propagates to the caller
unchanged — it is already a ValidationError, but carries no wrapped
cause. -/
theorem claim_C8 (d : PacketDict) (h : Heap) :
    (∀ e, CreateEtchPacket.init d.toInitArgs h = .error e →
      CreateEtchPacket.create_from_dict d h =
        .error (.valueErrorFrom "payload must be a valid CreateEtchPacket instance or dict." e)) ∧
    (∀ b h1 ss e, CreateEtchPacket.init d.toInitArgs h = .ok (b, h1) →
      d.signers = some ss → addAllSigners b ss h1 = .error e →
      CreateEtchPacket.create_from_dict d h = .error e) ∧
    (∀ b h1 h2, CreateEtchPacket.init d.toInitArgs h = .ok (b, h1) →
      (match d.signers with
       | none => Except.ok h1
       | some ss => addAllSigners b ss h1) = .ok h2 →
      CreateEtchPacket.create_from_dict d h =
        .ok (b, match d.files with
                | none => h2
                | some fs => addAllFiles b fs h2)) := by
  refine ⟨?_, ?_, ?_⟩
  · intro e he
    simp [CreateEtchPacket.create_from_dict, he]
  · intro b h1 ss e hinit hss hfold
    simp [CreateEtchPacket.create_from_dict, hinit, hss, hfold]
  · intro b h1 h2 hinit hfold
    simp [CreateEtchPacket.create_from_dict, hinit, hfold]

theorem claim_C8_witness :
    (CreateEtchPacket.create_from_dict { } { } =
      .error (.valueErrorFrom "payload must be a valid CreateEtchPacket instance or dict."
        (.typeError "Missing 2 required positional arguments: name and signature_email_subject"))) ∧
    (CreateEtchPacket.create_from_dict
        { name := some "packet", signers := some [{ signer_type := "sms" }] } { } =
      .error (.valueError "Etch signer signer_type must be only embedded or email")) :=
  ⟨(claim_C8 { } { }).1 _ rfl,
   (claim_C8 { name := some "packet", signers := some [{ signer_type := "sms" }] } { }).2.1
     demoB demoH0 [{ signer_type := "sms" }]
     (.valueError "Etch signer signer_type must be only embedded or email") rfl rfl rfl⟩

end PythonAnvil
